import Mathlib

/- Formal model of the function-combinator core of `functional.py`:
   the memoization engine (`memoize`, whose inner function is `lookup_f`),
   the call-counting decorator (`counter`), and the tortoise/hare
   periodicity detector (`is_eventually_periodic`).

   Python mutable state (the `results` dictionary captured by `lookup_f`,
   the `count` cell captured by `cf`) is embedded by explicit state
   passing: a wrapped Python callable becomes a function from an argument
   and a state to a result and an updated state.  Python `None` is
   embedded as `Option.none`, so a Python value of type `β` becomes an
   `Option β`.  A Python dictionary becomes an association list with
   insertion-order semantics (`dictGet` / `dictSet`). -/

/-- Python dictionary read `d.get(k)` (without default): `none` when the
key is absent, otherwise the stored value. -/
def dictGet {κ ν : Type} [DecidableEq κ] : List (κ × ν) → κ → Option ν
  | [], _ => none
  | (k', v) :: rest, k => if k' = k then some v else dictGet rest k

/-- Python dictionary write `d[k] = v`: replaces the value of an existing
key in place, appends a new key at the end. -/
def dictSet {κ ν : Type} [DecidableEq κ] : List (κ × ν) → κ → ν → List (κ × ν)
  | [], k, v => [(k, v)]
  | (k', v') :: rest, k, v =>
      if k' = k then (k, v) :: rest else (k', v') :: dictSet rest k v

/-- A wrapped Python callable: one positional argument tuple of type `κ`,
a captured mutable state of type `σ`, and a Python result (`Option β`,
with `none` standing for Python `None`). -/
def StFun (σ κ β : Type) : Type := κ → σ → Option β × σ

/-- A pure Python function, lifted to a stateless wrapped callable. -/
def pyfun {κ β : Type} (f : κ → Option β) : StFun Unit κ β :=
  fun a s => (f a, s)

/-- `memoize(f)` of `functional.py` (lines 117-130), as a combinator on
wrapped callables.  The returned `lookup_f` evaluates
`res = results.get(args, None)`; when `res is None` it invokes `f`,
stores the computed value under `args` (`results[args] = res`) and
returns it; otherwise it returns the stored value without invoking `f`.
The `results` dictionary is the second state component; the first is the
wrapped function's own state. -/
def memoize {σ κ β : Type} [DecidableEq κ] (g : StFun σ κ β) :
    StFun (σ × List (κ × Option β)) κ β :=
  fun a s =>
    match (dictGet s.2 a).getD none with
    | some v => (some v, s)
    | none =>
        let p := g a s.1
        (p.1, (p.2, dictSet s.2 a p.1))

/-- `counter(f)` of `functional.py` (lines 319-336): the wrapper `cf`
increments the captured count cell on every invocation and then
delegates to `f`.  The count is the second state component;
`get_count()` is reading that component, `reset_count()` is setting it
to zero. -/
def counter {σ κ β : Type} (g : StFun σ κ β) : StFun (σ × ℕ) κ β :=
  fun a s =>
    let p := g a s.1
    (p.1, (p.2, s.2 + 1))

/-- Two successive calls of a wrapped callable with the same argument:
the result and state of the second call. -/
def callTwice {σ κ β : Type} (g : StFun σ κ β) (a : κ) (s : σ) : Option β × σ :=
  g a (g a s).2

/-- Object identity for the re-wrapping claims: Python compares memoized
wrappers with `is`.  An object is either one of the original
(client-defined) function objects or the `lookup_f` wrapper allocated by
the `n`-th invocation of the original `memoize`; distinct constructor
arguments are distinct objects. -/
inductive Obj : Type where
  | orig : ℕ → Obj
  | wrapper : ℕ → Obj
  deriving DecidableEq

/-- The observable effect of one call of the original (un-memoized)
`memoize` on object identity: allocate and return a fresh `lookup_f`
wrapper object.  The state is the allocation counter, so no two calls
return the same object. -/
def newWrapper : StFun ℕ Obj Obj :=
  fun _ cnt => (some (Obj.wrapper cnt), cnt + 1)

/-- `memoize = memoize(memoize)` (line 216 of `functional.py`): the
generic `lookup_f` cache wrapped around the wrapper-allocating original
`memoize`.  Its cache maps a target object to the wrapper produced for
it. -/
def memoizedMemoize : StFun (ℕ × List (Obj × Option Obj)) Obj Obj :=
  memoize newWrapper

/-- The `while` loop of `is_eventually_periodic` (lines 56-60): with
`giveup` rounds of budget left, return `tortoise == hare` once the
budget is exhausted; otherwise exit with `true` on equality, else
advance the tortoise by one application of `f` and the hare by two and
spend one unit of budget. -/
def iepLoop {α : Type} [DecidableEq α] (f : α → α) : α → α → ℕ → Bool
  | t, h, 0 => decide (t = h)
  | t, h, g + 1 => if t = h then true else iepLoop f (f t) (f (f h)) g

/-- Lines 54-60 of `functional.py`: `tortoise, hare = x, f(x)` followed
by the tortoise/hare loop; `giveup` defaults to 1000 at the Python call
sites. -/
def is_eventually_periodic {α : Type} [DecidableEq α]
    (f : α → α) (x : α) (giveup : ℕ) : Bool :=
  iepLoop f x (f x) giveup

/-- The cycle-detection contract exactly as the specification words it,
for comparison against the code's `is_eventually_periodic`: tortoise
initialized to `f x` (one application of `f` to the seed) and hare to
`f (f x)` (two applications), with the same advance/compare loop. -/
def canonical_detect {α : Type} [DecidableEq α]
    (f : α → α) (x : α) (maxSteps : ℕ) : Bool :=
  iepLoop f (f x) (f (f x)) maxSteps

/-- Python `+` on two possibly-`None` values, as used by the `fib`
recursion (in fact both operands are never `None` there). -/
def optAdd : Option ℕ → Option ℕ → Option ℕ
  | some a, some b => some (a + b)
  | _, _ => none

/-- `fib` after `fib = memoize(fib)` (lines 136-145 of `functional.py`):
every call, the recursive ones included, goes through the memoized
global name, so each call first consults the `results` dictionary and
only on a miss runs the body `fib(n-1) + fib(n-2)` (base `1` for
`n < 2`), storing the result.  The cache is threaded explicitly. -/
def fib : ℕ → List (ℕ × Option ℕ) → Option ℕ × List (ℕ × Option ℕ)
  | 0, results =>
      match (dictGet results 0).getD none with
      | some v => (some v, results)
      | none => (some 1, dictSet results 0 (some 1))
  | 1, results =>
      match (dictGet results 1).getD none with
      | some v => (some v, results)
      | none => (some 1, dictSet results 1 (some 1))
  | n + 2, results =>
      match (dictGet results (n + 2)).getD none with
      | some v => (some v, results)
      | none =>
          let p1 := fib (n + 1) results
          let p2 := fib n p1.2
          let res := optAdd p1.1 p2.1
          (res, dictSet p2.2 (n + 2) res)

/-- Python exception classes relevant to calling `lookup_f`:
`TypeError` is the built-in raised by CPython both for a keyword
argument that the `def lookup_f(*args)` signature does not accept and
for an unhashable dictionary key; `UnhashableArgumentError` is the error
class the specification names, which `functional.py` never defines or
raises (it exists here only so the distinction is expressible). -/
inductive PyExc : Type where
  | typeError
  | unhashableArgumentError
  deriving DecidableEq

/-- A small Python value domain for the call-protocol claims: integers
and strings are hashable, a (mutable) list is not. -/
inductive PyVal : Type where
  | intV : ℤ → PyVal
  | strV : String → PyVal
  | listV : List ℤ → PyVal
  deriving DecidableEq

/-- Python hashability of one value: lists are unhashable. -/
def pyHashable : PyVal → Bool
  | PyVal.listV _ => false
  | _ => true

/-- An argument tuple can serve as a dictionary key iff every element is
hashable. -/
def tupleHashable (args : List PyVal) : Bool := args.all pyHashable

/-- One call of the memoized wrapper `lookup_f` (lines 120-125) under
the Python call protocol.  `def lookup_f(*args)` declares no keyword
parameters and no `**kwargs`, so CPython rejects any keyword argument
with `TypeError` before the body runs; `results.get(args, None)` hashes
the argument tuple and raises `TypeError` when it is unhashable, before
`f` is invoked and without touching the dictionary.  The result is the
call's outcome, the dictionary after the call, and how many times `f`
was invoked. -/
def lookup_f_py (f : List PyVal → Option PyVal)
    (results : List (List PyVal × Option PyVal))
    (args : List PyVal) (kwargs : List (String × PyVal)) :
    Except PyExc (Option PyVal) × List (List PyVal × Option PyVal) × ℕ :=
  if kwargs = [] then
    if tupleHashable args then
      match (dictGet results args).getD none with
      | some v => (Except.ok (some v), results, 0)
      | none => (Except.ok (f args), dictSet results args (f args), 1)
    else (Except.error PyExc.typeError, results, 0)
  else (Except.error PyExc.typeError, results, 0)

/-- Writing a key and reading it back yields the written value. -/
theorem dictGet_dictSet_self {κ ν : Type} [DecidableEq κ]
    (d : List (κ × ν)) (k : κ) (v : ν) :
    dictGet (dictSet d k v) k = some v := by
  induction d with
  | nil => simp [dictGet, dictSet]
  | cons p rest ih =>
      obtain ⟨k', v'⟩ := p
      by_cases h : k' = k
      · simp [dictSet, dictGet, h]
      · simp [dictSet, dictGet, h, ih]

/-- On the successor function over `ℤ`, the loop never finds the two
cursors equal when the hare starts strictly ahead: the gap only grows. -/
theorem iepLoop_succ_false :
    ∀ (g : ℕ) (t h : ℤ), t < h → iepLoop (fun x => x + 1) t h g = false := by
  intro g
  induction g with
  | zero =>
      intro t h hlt
      simp [iepLoop]
      omega
  | succ g ih =>
      intro t h hlt
      rw [iepLoop, if_neg (by omega)]
      exact ih (t + 1) (h + 1 + 1) (by omega)

/-- Unfolding the loop: `iepLoop f t h g` is `true` exactly when some
number `k ≤ g` of simultaneous advances makes the cursors meet. -/
theorem iepLoop_true_iff {α : Type} [DecidableEq α] (f : α → α) :
    ∀ (g : ℕ) (t h : α),
      iepLoop f t h g = true ↔ ∃ k, k ≤ g ∧ f^[k] t = f^[2 * k] h := by
  intro g
  induction g with
  | zero =>
      intro t h
      simp [iepLoop, Nat.le_zero]
  | succ g ih =>
      intro t h
      by_cases hth : t = h
      · subst hth
        rw [iepLoop, if_pos rfl]
        simp only [true_iff]
        exact ⟨0, Nat.zero_le _, rfl⟩
      · rw [iepLoop, if_neg hth, ih (f t) (f (f h))]
        constructor
        · rintro ⟨k, hk, heq⟩
          refine ⟨k + 1, Nat.succ_le_succ hk, ?_⟩
          have h2 : 2 * (k + 1) = 2 * k + 1 + 1 := by ring
          rw [Function.iterate_succ_apply, h2, Function.iterate_succ_apply,
            Function.iterate_succ_apply]
          exact heq
        · rintro ⟨k, hk, heq⟩
          cases k with
          | zero =>
              simp only [Function.iterate_zero, id, Nat.mul_zero] at heq
              exact absurd heq hth
          | succ k =>
              refine ⟨k, Nat.succ_le_succ_iff.mp hk, ?_⟩
              have h2 : 2 * (k + 1) = 2 * k + 1 + 1 := by ring
              rw [Function.iterate_succ_apply, h2, Function.iterate_succ_apply,
                Function.iterate_succ_apply] at heq
              exact heq

/-- Claim C4: the detector's three concrete results.  On
`f x = (x * x + 1) % 255` from seed `2` with the default budget `1000`
it returns `true`; on the successor function over unbounded integers it
returns `false` for every seed with budget `1000`; on the constant
function `1` from seed `5` it returns `true`. -/
theorem cycle_detection_concrete_cases :
    is_eventually_periodic (fun x : ℕ => (x * x + 1) % 255) 2 1000 = true ∧
    (∀ x0 : ℤ, is_eventually_periodic (fun x : ℤ => x + 1) x0 1000 = false) ∧
    is_eventually_periodic (fun _ : ℕ => 1) 5 1000 = true := by
  refine ⟨by decide, ?_, by decide⟩
  intro x0
  exact iepLoop_succ_false 1000 x0 (x0 + 1) (by omega)

/-- Claim C5, counterexample: the code does not follow the stated
canonical algorithm.  For `f x = min (x + 1) 2`, seed `0` and budget
`1`, the code (tortoise initialized to the seed itself, hare to one
application) returns `false`, while the canonical initialization stated
by the claim (tortoise at one application, hare at two) returns
`true`. -/
theorem detector_init_counterexample :
    is_eventually_periodic (fun x : ℕ => min (x + 1) 2) 0 1 = false ∧
    canonical_detect (fun x : ℕ => min (x + 1) 2) 0 1 = true := by
  exact ⟨by decide, by decide⟩

/-- Claim C5 (amended): the code initializes the tortoise to the seed
`x` itself (zero applications of `f`) and the hare to `f x` (one
application), then each round advances the tortoise by one application
and the hare by two, returning `true` the moment they are equal and
`false` when `giveup` rounds pass without the final values matching:
equivalently, it returns `true` exactly when `f^[k] x = f^[2*k+1] x`
for some round count `k ≤ giveup`. -/
theorem detector_characterization {α : Type} [DecidableEq α]
    (f : α → α) (x : α) (g : ℕ) :
    is_eventually_periodic f x g = true ↔
      ∃ k, k ≤ g ∧ f^[k] x = f^[2 * k + 1] x := by
  rw [is_eventually_periodic, iepLoop_true_iff]
  simp only [Function.iterate_succ_apply]

/-- Claim C3: after `memoize = memoize(memoize)`, memoizing the same
target object twice returns the identical wrapped object: from any
registry state, the second call with the same target returns exactly
what the first call returned. -/
theorem memoize_same_target_identical (g : Obj) (s : ℕ × List (Obj × Option Obj)) :
    (memoizedMemoize g (memoizedMemoize g s).2).1 = (memoizedMemoize g s).1 := by
  cases hc : (dictGet s.2 g).getD none with
  | some v => simp [memoizedMemoize, memoize, hc]
  | none => simp [memoizedMemoize, memoize, newWrapper, hc, dictGet_dictSet_self]

/-- Claim C2, counterexample: re-wrapping is not idempotent on object
identity.  Starting from the empty registry, `memoize` applied to the
original function object `Obj.orig 0` returns the wrapper
`Obj.wrapper 0`, and applying `memoize` to that wrapper returns a
different object (`Obj.wrapper 1`), not the wrapper itself. -/
theorem memoize_rewrap_not_idempotent :
    (memoizedMemoize (Obj.orig 0) (0, [])).1 = some (Obj.wrapper 0) ∧
    (memoizedMemoize (Obj.wrapper 0) ((memoizedMemoize (Obj.orig 0) (0, [])).2)).1 ≠
      (memoizedMemoize (Obj.orig 0) (0, [])).1 := by
  exact ⟨by decide, by decide⟩

/-- Claim C2 (amended): `memoize(memoize(f))` is not `memoize(f)`; the
self-memoized `memoize` deduplicates only per target object, so wrapping
the wrapper allocates a fresh second wrapper, while re-applying
`memoize` to the same original target returns the first wrapper
identically.  Stated for every original function object, starting from
the empty registry. -/
theorem memoize_rewrap_fresh_wrapper (n : ℕ) :
    (memoizedMemoize (Obj.orig n) (0, [])).1 = some (Obj.wrapper 0) ∧
    (memoizedMemoize (Obj.wrapper 0) ((memoizedMemoize (Obj.orig n) (0, [])).2)).1 =
      some (Obj.wrapper 1) ∧
    (memoizedMemoize (Obj.orig n)
        ((memoizedMemoize (Obj.wrapper 0)
          ((memoizedMemoize (Obj.orig n) (0, [])).2)).2)).1 = some (Obj.wrapper 0) ∧
    Obj.wrapper 1 ≠ Obj.wrapper 0 := by
  refine ⟨?_, ?_, ?_, by simp⟩ <;>
    simp [memoizedMemoize, memoize, newWrapper, dictGet, dictSet]

/-- Claim C1, counterexample: a pure function whose value is `None`
defeats the cache.  For `f _ = None`, calling the memoized wrapper (with
`f` instrumented by `counter`) twice with the same argument invokes `f`
both times: the call count is `1` after the first call and `2` after the
second, so the externally observable call count of `f` does increase. -/
theorem memoize_none_recall_counterexample :
    ((memoize (counter (pyfun (fun _ : ℕ => (none : Option ℕ))))) 0 (((), 0), [])).2.1.2 = 1 ∧
    (callTwice (memoize (counter (pyfun (fun _ : ℕ => (none : Option ℕ))))) 0 (((), 0), [])).2.1.2 = 2 := by
  exact ⟨by decide, by decide⟩

/-- Claim C1 (amended): for every pure `f` and argument `a`, the
memoized wrapper returns `f a` on the first call and again on the
second; and provided `f a` is not `None`, the second call is served from
the cache without invoking `f` again, so the call count of `f` (observed
through a `counter` instrumentation sitting between cache and function)
stays at `1`. -/
theorem memoize_cache_correct {κ β : Type} [DecidableEq κ]
    (f : κ → Option β) (a : κ) :
    ((memoize (counter (pyfun f))) a (((), 0), [])).1 = f a ∧
    (callTwice (memoize (counter (pyfun f))) a (((), 0), [])).1 = f a ∧
    (f a ≠ none →
      (callTwice (memoize (counter (pyfun f))) a (((), 0), [])).2.1.2 = 1) := by
  cases hfa : f a with
  | none => simp [callTwice, memoize, counter, pyfun, dictGet, dictSet, hfa]
  | some v => simp [callTwice, memoize, counter, pyfun, dictGet, dictSet, hfa]

/-- Claim C1, witness: the amended theorem applied at `f _ = some 0`,
`a = 0`. -/
theorem memoize_cache_correct_witness :
    ((fun _ : ℕ => (some 0 : Option ℕ)) 0 ≠ none) ∧
    (callTwice (memoize (counter (pyfun (fun _ : ℕ => (some 0 : Option ℕ))))) 0 (((), 0), [])).2.1.2 = 1 :=
  ⟨by decide, (memoize_cache_correct (fun _ : ℕ => (some 0 : Option ℕ)) 0).2.2 (by decide)⟩

/-- Claim C6: composition order of `counter` and `memoize` is
observable.  For the identity function, two calls of
`counter(memoize(f))` with the same argument leave the outer count at
`2` (the cache hit still passes through the counter), while two calls of
`memoize(counter(f))` with the same argument leave the inner count at
`1` (the cache hit bypasses the counted function). -/
theorem counter_ordering_sensitivity (x : ℕ) :
    (callTwice (counter (memoize (pyfun (fun n : ℕ => some n)))) x ((((), []), 0))).2.2 = 2 ∧
    (callTwice (memoize (counter (pyfun (fun n : ℕ => some n)))) x (((), 0), [])).2.1.2 = 1 := by
  constructor <;> simp [callTwice, counter, memoize, pyfun, dictGet, dictSet]

/-- Claim C7, counterexample: calling the memoized wrapper with an
unhashable argument (a tuple containing a list) raises the built-in
`TypeError`, not an `UnhashableArgumentError` — `functional.py` defines
no such class. -/
theorem unhashable_raises_typeerror_not_custom :
    (lookup_f_py (fun _ => none) [] [PyVal.listV []] []).1 = Except.error PyExc.typeError ∧
    (lookup_f_py (fun _ => none) [] [PyVal.listV []] []).1 ≠
      Except.error PyExc.unhashableArgumentError := by
  refine ⟨rfl, ?_⟩
  intro h
  simp [lookup_f_py, tupleHashable, pyHashable] at h

/-- Claim C7 (amended): calling the memoized wrapper with an argument
tuple that cannot serve as a cache key raises the built-in `TypeError`
(not a dedicated `UnhashableArgumentError`); the call aborts before the
underlying function is invoked (zero invocations) and the cache is
returned unchanged. -/
theorem unhashable_aborts_before_call (f : List PyVal → Option PyVal)
    (results : List (List PyVal × Option PyVal)) (args : List PyVal)
    (h : tupleHashable args = false) :
    lookup_f_py f results args [] = (Except.error PyExc.typeError, results, 0) := by
  simp [lookup_f_py, h]

/-- Claim C7, witness: the amended theorem applied at the unhashable
argument tuple `[listV []]`. -/
theorem unhashable_aborts_before_call_witness :
    tupleHashable [PyVal.listV []] = false ∧
    lookup_f_py (fun _ => some (PyVal.intV 0)) [] [PyVal.listV []] [] =
      (Except.error PyExc.typeError, [], 0) :=
  ⟨by decide,
   unhashable_aborts_before_call (fun _ => some (PyVal.intV 0)) [] [PyVal.listV []] (by decide)⟩

/-- Claim C8: the memoized Fibonacci-style recursion, recursing through
its own memoized reference, returns `fib 10 = 89` and leaves at most 11
distinct cache entries. -/
theorem memoized_fib_end_to_end :
    (fib 10 []).1 = some 89 ∧ (fib 10 []).2.length ≤ 11 := by
  exact ⟨by decide, by decide⟩

/-- Claim C9, counterexample: a keyword-style call of the memoized
wrapper does not succeed.  `def lookup_f(*args)` accepts no keyword
arguments, so the call raises the built-in `TypeError` instead of
returning a result. -/
theorem kwargs_call_fails_counterexample :
    (lookup_f_py (fun _ => some (PyVal.intV 0)) [] [PyVal.intV 1]
        [("k", PyVal.intV 2)]).1 = Except.error PyExc.typeError := rfl

/-- Claim C9 (amended): the wrapper returned by `memoize` accepts only
positional arguments.  A call passing any keyword-style argument raises
the built-in `TypeError` before the body runs, invoking the underlying
function zero times and leaving the cache unchanged; it does not succeed
with the keyword arguments bypassing the cache key. -/
theorem kwargs_call_raises_typeerror (f : List PyVal → Option PyVal)
    (results : List (List PyVal × Option PyVal)) (args : List PyVal)
    (kwargs : List (String × PyVal)) (h : kwargs ≠ []) :
    lookup_f_py f results args kwargs = (Except.error PyExc.typeError, results, 0) := by
  simp [lookup_f_py, h]

/-- Claim C9, witness: the amended theorem applied at the keyword
argument list `[("k", intV 0)]`. -/
theorem kwargs_call_raises_typeerror_witness :
    ([(("k" : String), PyVal.intV 0)] ≠ ([] : List (String × PyVal))) ∧
    lookup_f_py (fun _ => none) [] [] [("k", PyVal.intV 0)] =
      (Except.error PyExc.typeError, [], 0) :=
  ⟨by simp,
   kwargs_call_raises_typeerror (fun _ => none) [] [] [("k", PyVal.intV 0)] (by simp)⟩

/-- Claim C10, counterexample: the cache does contain `None` as a stored
value.  For `f _ = None`, after one call of the memoized wrapper the
`results` dictionary holds the entry `(0, None)` — `results[args] = res`
runs unconditionally after computing, so a `None` result is stored, not
skipped. -/
theorem cache_stores_none_counterexample :
    ((memoize (counter (pyfun (fun _ : ℕ => (none : Option ℕ))))) 0 (((), 0), [])).2.2 =
      [(0, (none : Option ℕ))] := by decide

/-- Claim C10 (amended): `None` acts as the absence sentinel in the
lookup, so a key whose stored value is not `None` is returned as is —
the call invokes nothing and rewrites nothing — while a call whose
lookup yields `None` (key absent, or present with stored value `None`)
re-invokes `f` and stores the computed value, overwriting a `None` entry
with `None` again when `f a = None`.  Cached non-`None` values are thus
never overwritten, but the cache can and does hold `None` entries. -/
theorem none_sentinel_behavior {κ β : Type} [DecidableEq κ]
    (f : κ → Option β) (a : κ) (c : List (κ × Option β)) (n : ℕ) (v : β) :
    (dictGet c a = some (some v) →
      (memoize (counter (pyfun f))) a (((), n), c) = (some v, (((), n), c))) ∧
    ((dictGet c a).getD none = none → f a = none →
      (memoize (counter (pyfun f))) a (((), n), c) =
        (none, (((), n + 1), dictSet c a none))) := by
  constructor
  · intro hv
    simp [memoize, counter, pyfun, hv]
  · intro h0 hfa
    simp [memoize, counter, pyfun, h0, hfa]

/-- Claim C10, witness: the amended theorem applied at `f _ = None` with
the cache `[(1, some 5)]` — the non-`None` entry at key `1` is returned
untouched, and the call at the absent key `0` re-invokes `f` and stores
`None`. -/
theorem none_sentinel_behavior_witness :
    (memoize (counter (pyfun (fun _ : ℕ => (none : Option ℕ))))) 1 (((), 0), [(1, some 5)]) =
      (some 5, (((), 0), [(1, some 5)])) ∧
    (memoize (counter (pyfun (fun _ : ℕ => (none : Option ℕ))))) 0 (((), 0), [(1, some 5)]) =
      (none, (((), 1), dictSet [(1, some 5)] 0 none)) :=
  ⟨(none_sentinel_behavior (fun _ : ℕ => (none : Option ℕ)) 1 [(1, some 5)] 0 5).1 (by decide),
   (none_sentinel_behavior (fun _ : ℕ => (none : Option ℕ)) 0 [(1, some 5)] 0 5).2 (by decide) (by decide)⟩
